import Mathlib

/-!
Verification development for the citra-canary excerpt consisting of
`src/audio_core/hle/fdk_decoder.cpp`, `src/citra_qt/bootmanager.cpp` and
`src/citra_qt/configuration/configure_graphics.cpp`.

Each C++ unit is shallowly embedded as executable Lean definitions:
machine integers become `Nat` with explicit `% 2^w` where the C++
arithmetic is performed at width `w`, `std::optional` becomes `Option`,
and calls into external libraries (fdk_aac, Qt, OpenGL, Vulkan) are
modelled by explicit oracle inputs describing the library's observable
behaviour at each call site.
-/

/-! ## FDK AAC decoder (`audio_core/hle/fdk_decoder.cpp`)

The decoder class receives `BinaryMessage` requests and forwards AAC
work to the fdk_aac library, transferring input and output buffers
through emulated FCRAM.
-/

/-- Modelled from the spec: `Memory::FCRAM_PADDR` is declared in
`core/memory.h`, which is not part of the excerpt; the value is the
3DS FCRAM physical base address used by the emulator. It is a `u32`
constant in the source. -/
def FCRAM_PADDR : Nat := 0x20000000

/-- Modelled from the spec: `Memory::FCRAM_SIZE` is declared in
`core/memory.h`, which is not part of the excerpt; the value is the
3DS FCRAM size (128 MiB). It is a `u32` constant in the source. -/
def FCRAM_SIZE : Nat := 0x08000000

/-- Modelled from the spec: `DecoderCodec` is declared in
`audio_core/hle/decoder.h`, outside the excerpt. `fdk_decoder.cpp`
only distinguishes `DecodeAAC` from every other underlying `u16`
value, so the model keeps one constructor for `DecodeAAC` and one for
any other raw value. -/
inductive DecoderCodec where
  | decodeAAC
  | otherCodec (v : Nat)
deriving DecidableEq

/-- Modelled from the spec: `DecoderCommand` is declared in
`audio_core/hle/decoder.h`, outside the excerpt. `ProcessRequest`
switches on `Init`, `EncodeDecode` and `Unknown` and has a `default`
arm for every other raw `u16` value. -/
inductive DecoderCommand where
  | init
  | encodeDecode
  | unknownCmd
  | otherCmd (v : Nat)
deriving DecidableEq

/-- Modelled from the spec: `ResultStatus::Success` from
`audio_core/hle/decoder.h` (outside the excerpt); the header `result`
field is a raw integer and `Success` is its zero value. -/
def resultSuccess : Nat := 0

/-- The header fields of a `BinaryMessage` that `fdk_decoder.cpp`
reads or writes: `codec`, `cmd` and `result`. -/
structure BinaryHeader where
  codec : DecoderCodec
  cmd : DecoderCommand
  result : Nat
deriving DecidableEq

/-- The `DecodeAACRequest` fields used by `FDKDecoder::Impl::Decode`.
All four fields are `u32` in the source; the well-formedness bound
`< 2^32` is carried as a hypothesis where a theorem needs it. -/
structure AacRequest where
  src_addr : Nat
  size : Nat
  dst_addr_ch0 : Nat
  dst_addr_ch1 : Nat
deriving DecidableEq

/-- The `DecodeAACResponse` fields written by `FDKDecoder::Impl::Decode`. -/
structure AacResponse where
  sample_rate : Nat
  num_channels : Nat
  num_samples : Nat
  size : Nat
deriving DecidableEq

/-- A `BinaryMessage`. In the C++ header the request and response
views overlap in a union; the two views are kept as separate fields
here (no claim depends on the aliasing) and unwritten fields are 0. -/
structure BinaryMessage where
  header : BinaryHeader
  aac_request : AacRequest
  aac_response : AacResponse
deriving DecidableEq

def zeroAacRequest : AacRequest :=
  { src_addr := 0, size := 0, dst_addr_ch0 := 0, dst_addr_ch1 := 0 }

def zeroAacResponse : AacResponse :=
  { sample_rate := 0, num_channels := 0, num_samples := 0, size := 0 }

/-- Modelled from the spec: `GetSampleRateEnum` lives in
`audio_core/hle/decoder.h`, outside the excerpt; it maps a raw sample
rate in Hz to the DSP enumeration. No claim constrains the mapping,
so it is modelled as the identity on the raw rate. -/
def GetSampleRateEnum (hz : Nat) : Nat := hz

/-- Result of one `aacDecoder_DecodeFrame` call, as observed by
`Decode`: success together with the stream info (`sampleRate`,
`numChannels`, `frameSize`) and the contents of `decoder_output`,
a transport-sync error (the loop retries), or any other error (the
loop aborts). -/
inductive FrameResult where
  | ok (sampleRate : Nat) (numChannels : Nat) (frameSize : Nat) (output : List Int)
  | syncError
  | otherError
deriving DecidableEq

/-- Oracle for one iteration of the decode loop: the outcome of the
`aacDecoder_Fill` call (whether it succeeded and how many input bytes
it consumed from `buffer_remaining`) and of the following
`aacDecoder_DecodeFrame` call. -/
structure CodecStep where
  fillOk : Bool
  consumed : Nat
  frame : FrameResult
deriving DecidableEq

/-- The two `out_streams` vectors of `Decode`. -/
structure OutStreams where
  ch0 : List Int
  ch1 : List Int
deriving DecidableEq

def emptyOuts : OutStreams := { ch0 := [], ch1 := [] }

/-- Embeds `out_streams[ch].push_back(v)`. A channel index `ch ≥ 2` is an
out-of-bounds array access in the C++ (undefined behaviour); the model
drops such pushes, and `deinterleave_in_bounds` below shows the case
is unreachable under the codec parameter bounds. -/
def OutStreams.push (o : OutStreams) (ch : Nat) (v : Int) : OutStreams :=
  if ch = 0 then { o with ch0 := o.ch0 ++ [v] }
  else if ch = 1 then { o with ch1 := o.ch1 ++ [v] }
  else o

def OutStreams.get (o : OutStreams) (ch : Nat) : List Int :=
  if ch = 0 then o.ch0 else o.ch1

/-- The `(sample, ch)` pairs visited by the nested de-interleaving
loops of `Decode` (`for sample` outer, `for ch` inner), in visit
order. -/
def deinterleaveIdx (frameSize numChannels : Nat) : List (Nat × Nat) :=
  (List.range frameSize).flatMap fun s => (List.range numChannels).map fun c => (s, c)

/-- One de-interleaving pass of `Decode`: for each visited pair the
value `decoder_output[(sample * numChannels) + ch]` is appended to
`out_streams[ch]`. `output` is the contents of the 4096-element
`decoder_output` array; indices past the oracle list read as 0. -/
def pushFrame (o : OutStreams) (output : List Int) (numChannels frameSize : Nat) :
    OutStreams :=
  (deinterleaveIdx frameSize numChannels).foldl
    (fun acc p => acc.push p.2 (output.getD (p.1 * numChannels + p.2) 0)) o

/-- Result of the decode loop: `libError` when `aacDecoder_Fill`
failed or `aacDecoder_DecodeFrame` returned a non-sync error (the C++
returns `std::nullopt`), `finished` when `buffer_remaining` reached
zero. -/
inductive LoopResult where
  | libError (outs : OutStreams)
  | finished (resp : BinaryMessage) (outs : OutStreams)
deriving DecidableEq

/-- The `while (buffer_remaining)` loop of `Decode`. `steps` supplies
the library's behaviour for each iteration; `none` means the supplied
oracle trace ran out before the loop ended (the C++ would still be
looping). `buffer_remaining` is a `u32` decremented by
`aacDecoder_Fill` by the number of bytes it consumed. -/
def decodeLoop (steps : List CodecStep) (bufferRemaining : Nat)
    (resp : BinaryMessage) (outs : OutStreams) : Option LoopResult :=
  if bufferRemaining = 0 then some (.finished resp outs)
  else
    match steps with
    | [] => none
    | step :: rest =>
      if !step.fillOk then some (.libError outs)
      else
        let br := bufferRemaining - min step.consumed bufferRemaining
        match step.frame with
        | .ok sr nc fs output =>
          let resp :=
            { resp with aac_response :=
              { resp.aac_response with
                  sample_rate := GetSampleRateEnum sr
                  num_channels := nc
                  num_samples := fs } }
          decodeLoop rest br resp (pushFrame outs output nc fs)
        | .syncError => decodeLoop rest br resp outs
        | .otherError => some (.libError outs)

/-- One round of the final transfer loop of `Decode` for channel `ch`:
`none` when the destination bounds check fails (the C++ returns `{}`),
otherwise the write events performed (channel, destination address,
samples). The comparison is the C++ one: `dst` is `u32`, `byte_size`
is `size_t` (64-bit), so the sum is reduced modulo `2^64`. -/
def channelTransfer (req : AacRequest) (outs : OutStreams) (ch : Nat) :
    Option (List (Nat × Nat × List Int)) :=
  let samples := outs.get ch
  if samples = [] then some []
  else
    let byteSize := samples.length * 2 % 2 ^ 64
    let dst := if ch = 0 then req.dst_addr_ch0 else req.dst_addr_ch1
    if dst < FCRAM_PADDR ∨ (dst + byteSize) % 2 ^ 64 > FCRAM_PADDR + FCRAM_SIZE then
      none
    else
      some [(ch, dst, samples)]

/-- The `for (ch = 0; ch < out_streams.size(); ch++)` transfer loop:
channel 0's `memcpy` happens before channel 1's bounds check, so a
failure on channel 1 still leaves channel 0's write performed. The
`Bool` is whether the loop completed without a bounds failure. -/
def transferAll (req : AacRequest) (outs : OutStreams) :
    Bool × List (Nat × Nat × List Int) :=
  match channelTransfer req outs 0 with
  | none => (false, [])
  | some w0 =>
    match channelTransfer req outs 1 with
    | none => (false, w0)
    | some w1 => (true, w0 ++ w1)

/-- Observable outcome of `FDKDecoder::Impl::Decode`: the returned
optional message, whether the guest source buffer was handed to the
codec (`memory.GetFCRAMPointer(src_addr - FCRAM_PADDR)` followed by
`aacDecoder_Fill`), the guest-memory write events of the transfer
loop, and the final `out_streams`. -/
structure DecodeOutcome where
  response : Option BinaryMessage
  srcAccessed : Bool
  writes : List (Nat × Nat × List Int)
  outs : OutStreams
deriving DecidableEq

/-- Embeds `FDKDecoder::Impl::Decode`. `decoderValid` models
`decoder != nullptr`; `steps` is the library oracle for the decode
loop. `none` means the oracle trace ended before the C++ loop did.
The source bounds check mirrors the C++ `u32` arithmetic:
`src_addr + size` is reduced modulo `2^32`. -/
def fdkDecode (decoderValid : Bool) (steps : List CodecStep)
    (request : BinaryMessage) : Option DecodeOutcome :=
  let resp0 : BinaryMessage :=
    { header := { codec := request.header.codec, cmd := request.header.cmd, result := 0 }
      aac_request := zeroAacRequest
      aac_response := { zeroAacResponse with size := request.aac_request.size } }
  if !decoderValid then
    some { response := some { resp0 with aac_response :=
             { resp0.aac_response with num_channels := 2, num_samples := 1024 } }
           srcAccessed := false, writes := [], outs := emptyOuts }
  else
    let r := request.aac_request
    if r.src_addr < FCRAM_PADDR ∨
        (r.src_addr + r.size) % 2 ^ 32 > FCRAM_PADDR + FCRAM_SIZE then
      some { response := none, srcAccessed := false, writes := [], outs := emptyOuts }
    else
      match decodeLoop steps r.size resp0 emptyOuts with
      | none => none
      | some (.libError outs) =>
        some { response := none, srcAccessed := true, writes := [], outs := outs }
      | some (.finished resp outs) =>
        match transferAll r outs with
        | (false, ws) =>
          some { response := none, srcAccessed := true, writes := ws, outs := outs }
        | (true, ws) =>
          some { response := some resp, srcAccessed := true, writes := ws, outs := outs }

/-- Embeds `FDKDecoder::Impl::Initalize`: the response message and whether
`Clear()` was called (it is called exactly when the decoder handle is
non-null; it only decodes into a local stack buffer and never touches
guest memory or the message). -/
def initalize (decoderValid : Bool) (request : BinaryMessage) :
    BinaryMessage × Bool :=
  ({ request with header := { request.header with result := resultSuccess } },
   decoderValid)

/-- Embeds `FDKDecoder::Impl::IsValid`. -/
def isValid (decoderValid : Bool) : Bool := decoderValid

/-- Embeds `FDKDecoder::Impl::ProcessRequest`: rejects every codec other than
`DecodeAAC`, then dispatches on the command. Wrapped in the same
outcome type as `fdkDecode` so that the absence of memory traffic on
the non-`Decode` paths is explicit. -/
def processRequest (decoderValid : Bool) (steps : List CodecStep)
    (request : BinaryMessage) : Option DecodeOutcome :=
  if request.header.codec ≠ DecoderCodec.decodeAAC then
    some { response := none, srcAccessed := false, writes := [], outs := emptyOuts }
  else
    match request.header.cmd with
    | .init =>
      some { response := some (initalize decoderValid request).1
             srcAccessed := false, writes := [], outs := emptyOuts }
    | .encodeDecode => fdkDecode decoderValid steps request
    | .unknownCmd =>
      some { response := some { request with header := { request.header with result := 0 } }
             srcAccessed := false, writes := [], outs := emptyOuts }
    | .otherCmd _ =>
      some { response := none, srcAccessed := false, writes := [], outs := emptyOuts }

/-! ## Graphics configuration dialog (`citra_qt/configuration/configure_graphics.cpp`)

The model covers the global configuration mode
(`Settings::IsConfiguringGlobal() == true`). Only the flow of values
between `Settings::values` and the dialog's widgets is modelled;
widget enable/visibility flags, combo-box item lists and signal
re-emissions never feed back into `Settings::values` and are omitted.
The `ConfigurationShared::ApplyPerGameSetting` helpers live in
`configuration_shared.cpp`, outside the excerpt; in global mode each
assigns the setting from the widget's current value (modelled from the
spec's description of the dialog as pure settings binding). -/

/-- Value of `Settings::GraphicsAPI::Software` (raw value 0). The
`GraphicsAPI` enum is declared in `common/settings.h`, outside the
excerpt; combo indices and enum values coincide. -/
def apiSoftware : Nat := 0

/-- Value of `Settings::GraphicsAPI::OpenGL` (raw value 1). -/
def apiOpenGL : Nat := 1

/-- Value of `Settings::GraphicsAPI::Vulkan` (raw value 2). -/
def apiVulkan : Nat := 2

/-- The members of `Settings::values` that `configure_graphics.cpp`
reads or writes. -/
structure GraphicsSettings where
  graphics_api : Nat
  physical_device : Nat
  use_hw_shader : Bool
  shaders_accurate_mul : Bool
  use_disk_shader_cache : Bool
  use_vsync_new : Bool
  spirv_shader_gen : Bool
  async_shader_compilation : Bool
  async_presentation : Bool
  use_shader_jit : Bool
deriving DecidableEq

/-- The dialog widgets whose values are bound to settings: the two
combo boxes (current index) and the check boxes (checked state). -/
structure GraphicsWidgets where
  graphics_api_combo : Nat
  physical_device_combo : Nat
  toggle_hw_shader : Bool
  toggle_accurate_mul : Bool
  toggle_disk_shader_cache : Bool
  toggle_vsync_new : Bool
  spirv_shader_gen : Bool
  toggle_async_shaders : Bool
  toggle_async_present : Bool
  toggle_shader_jit : Bool
deriving DecidableEq

/-- Embeds `ConfigureGraphics::DiscoverPhysicalDevices`, restricted to its
effect on `Settings::values`: when constructing `Vulkan::Instance`
throws (the device does not support Vulkan) the catch branch assigns
`Settings::values.graphics_api = Settings::GraphicsAPI::OpenGL`;
otherwise settings are untouched (the try branch only adds combo-box
items). -/
def discoverPhysicalDevices (vulkanAvailable : Bool) (s : GraphicsSettings) :
    GraphicsSettings :=
  if vulkanAvailable then s else { s with graphics_api := apiOpenGL }

/-- Embeds `ConfigureGraphics::SetConfiguration` in global mode: every bound
widget is loaded from the corresponding setting (including
`toggle_shader_jit`, which is only handled in global mode). Settings
are only read. -/
def setConfiguration (s : GraphicsSettings) (w : GraphicsWidgets) :
    GraphicsWidgets :=
  { w with
      graphics_api_combo := s.graphics_api
      physical_device_combo := s.physical_device
      toggle_hw_shader := s.use_hw_shader
      toggle_accurate_mul := s.shaders_accurate_mul
      toggle_disk_shader_cache := s.use_disk_shader_cache
      toggle_vsync_new := s.use_vsync_new
      spirv_shader_gen := s.spirv_shader_gen
      toggle_async_shaders := s.async_shader_compilation
      toggle_async_present := s.async_presentation
      toggle_shader_jit := s.use_shader_jit }

/-- The `ConfigureGraphics` constructor in global mode:
`DiscoverPhysicalDevices`, then `SetupPerGameUI` and the
`connect`ed lambdas (which only touch widget enable/visibility state),
then `SetConfiguration`. Returns the settings store and widget state
after construction. -/
def constructConfigureGraphics (vulkanAvailable : Bool)
    (s : GraphicsSettings) (w : GraphicsWidgets) :
    GraphicsSettings × GraphicsWidgets :=
  let s1 := discoverPhysicalDevices vulkanAvailable s
  (s1, setConfiguration s1 w)

/-- Embeds `ConfigureGraphics::ApplyConfiguration` in global mode: every
bound setting is assigned from the corresponding widget (including
`use_shader_jit`, guarded by `IsConfiguringGlobal`). -/
def applyConfiguration (s : GraphicsSettings) (w : GraphicsWidgets) :
    GraphicsSettings :=
  { s with
      graphics_api := w.graphics_api_combo
      physical_device := w.physical_device_combo
      async_shader_compilation := w.toggle_async_shaders
      async_presentation := w.toggle_async_present
      spirv_shader_gen := w.spirv_shader_gen
      use_hw_shader := w.toggle_hw_shader
      shaders_accurate_mul := w.toggle_accurate_mul
      use_disk_shader_cache := w.toggle_disk_shader_cache
      use_vsync_new := w.toggle_vsync_new
      use_shader_jit := w.toggle_shader_jit }

/-! ## Emulation thread loop (`EmuThread::run`, `citra_qt/bootmanager.cpp`)

Only the `while (!stop_run)` loop (bootmanager.cpp lines 94-132) is
modelled; the loading prelude before it performs no emulation steps.
`stop_run`, `running` and `exec_step` are atomics also written by the
GUI thread; external writes are modelled as landing at the loop-head
check of each iteration, which is the granularity at which the loop
samples them. -/

/-- Embeds `Core::System::ResultStatus` as distinguished by the loop:
`Success`, `ShutdownRequested`, or any other (error) value. -/
inductive ResultStatus where
  | success
  | shutdownRequested
  | otherError (code : Nat)
deriving DecidableEq

/-- Environment input for one loop iteration: the sampled value of
`stop_run`, optional external writes to `running` and `exec_step`
performed since the previous iteration, and the value
`system.RunLoop()` would return if called. -/
structure EnvInput where
  stopRun : Bool
  setRunning : Option Bool
  setExecStep : Option Bool
  runLoopResult : ResultStatus
deriving DecidableEq

/-- The loop-local state: the `running` and `exec_step` flags and the
`was_active` local. -/
structure EmuState where
  running : Bool
  execStep : Bool
  wasActive : Bool
deriving DecidableEq

/-- Observable events of the loop body: the signals it emits, the
emulation steps it executes and the final `system.Shutdown()`. -/
inductive EmuEvent where
  | debugModeLeft
  | debugModeEntered
  | runLoopStep (r : ResultStatus)
  | singleStep
  | errorThrown (r : ResultStatus)
  | shutdown
deriving DecidableEq

/-- One iteration of the `while (!stop_run)` loop: the events emitted,
the state afterwards, and whether the loop exits (head check failed or
`break` was executed). -/
def emuStep (e : EnvInput) (s : EmuState) : List EmuEvent × EmuState × Bool :=
  let s : EmuState := { s with
      running := e.setRunning.getD s.running
      execStep := e.setExecStep.getD s.execStep }
  if e.stopRun then ([], s, true)
  else if s.running then
    let left := if !s.wasActive then [EmuEvent.debugModeLeft] else []
    let r := e.runLoopResult
    if r = ResultStatus.shutdownRequested then
      (left ++ [EmuEvent.runLoopStep r, EmuEvent.errorThrown r], s, true)
    else
      let s2 : EmuState := if r ≠ ResultStatus.success then { s with running := false } else s
      let errs := if r ≠ ResultStatus.success then [EmuEvent.errorThrown r] else []
      let wasActive := s2.running || s2.execStep
      let entered := if !wasActive && !e.stopRun then [EmuEvent.debugModeEntered] else []
      (left ++ [EmuEvent.runLoopStep r] ++ errs ++ entered,
       { s2 with wasActive := wasActive }, false)
  else if s.execStep then
    let left := if !s.wasActive then [EmuEvent.debugModeLeft] else []
    (left ++ [EmuEvent.singleStep, EmuEvent.debugModeEntered],
     { s with execStep := false, wasActive := false }, false)
  else
    ([], s, false)

/-- The loop of `EmuThread::run` driven by a finite environment
schedule, followed by the single `system.Shutdown()` call after the
loop exits. `none` means the schedule ran out before the loop exited
(the thread would still be running). -/
def emuLoop : List EnvInput → EmuState → Option (List EmuEvent)
  | [], _ => none
  | e :: rest, s =>
    match emuStep e s with
    | (evs, _, true) => some (evs ++ [EmuEvent.shutdown])
    | (evs, s3, false) => (emuLoop rest s3).map fun t => evs ++ t

/-- Whether an event is an emulation step (`system.RunLoop()` or
`system.SingleStep()`). -/
def isEmulationStep : EmuEvent → Bool
  | .runLoopStep _ => true
  | .singleStep => true
  | _ => false

def isShutdownEvent : EmuEvent → Bool
  | .shutdown => true
  | _ => false

/-- Whether an event is a `RunLoop` step that returned
`ShutdownRequested`. -/
def isShutdownReqStep : EmuEvent → Bool
  | .runLoopStep .shutdownRequested => true
  | _ => false

/-- Holds when no emulation step occurs after a `RunLoop` call that
returned `ShutdownRequested`. -/
def noStepAfterShutdownReq : List EmuEvent → Bool
  | [] => true
  | ev :: rest =>
    if isShutdownReqStep ev then rest.all fun e2 => !isEmulationStep e2
    else noStepAfterShutdownReq rest

/-! ## Render target creation (`GRenderWindow::InitRenderTarget`,
`citra_qt/bootmanager.cpp`)

The Qt/OpenGL environment is an oracle of four flags: whether the
binary was compiled with `HAS_OPENGL`, whether
`QOpenGLContext::supportsThreadedOpenGL()` holds, whether
`gladLoadGL()` succeeds and whether `GLAD_GL_VERSION_4_3` is
available. -/

structure GLEnv where
  hasOpenGL : Bool
  supportsThreadedOpenGL : Bool
  gladLoadOk : Bool
  glVersion43 : Bool
deriving DecidableEq

inductive GraphicsAPI where
  | software
  | opengl
  | vulkan
deriving DecidableEq

inductive RenderWidgetKind where
  | openglWidget
  | vulkanWidget
  | softwareWidget
deriving DecidableEq

inductive ContextKind where
  | dummyContext
  | openglSharedContext
deriving DecidableEq

/-- The `GRenderWindow` members set by the initialization paths:
`child_widget` and the static `main_context`. -/
structure RenderState where
  childWidget : Option RenderWidgetKind
  mainContext : Option ContextKind
deriving DecidableEq

/-- Embeds `GRenderWindow::InitializeOpenGL`: without `HAS_OPENGL` or without
threaded OpenGL support it warns and returns `false`; otherwise it
creates an `OpenGLRenderWidget` and, when no `main_context` exists
yet, an `OpenGLSharedContext`. -/
def initializeOpenGL (env : GLEnv) (st : RenderState) : Bool × RenderState :=
  if !env.hasOpenGL then (false, st)
  else if !env.supportsThreadedOpenGL then (false, st)
  else
    (true,
     { childWidget := some RenderWidgetKind.openglWidget
       mainContext := some (st.mainContext.getD ContextKind.openglSharedContext) })

/-- Embeds `GRenderWindow::InitializeVulkan`: creates a `VulkanRenderWidget`
and a fresh `DummyContext` as the main context. -/
def initializeVulkan (_st : RenderState) : RenderState :=
  { childWidget := some RenderWidgetKind.vulkanWidget
    mainContext := some ContextKind.dummyContext }

/-- Embeds `GRenderWindow::InitializeSoftware`: creates a
`SoftwareRenderWidget` and a fresh `DummyContext` as the main
context. -/
def initializeSoftware (_st : RenderState) : RenderState :=
  { childWidget := some RenderWidgetKind.softwareWidget
    mainContext := some ContextKind.dummyContext }

/-- Embeds `GRenderWindow::LoadOpenGL`: fails when `gladLoadGL()` fails or
OpenGL 4.3 is unavailable. -/
def loadOpenGL (env : GLEnv) : Bool :=
  env.gladLoadOk && env.glVersion43

/-- Embeds `GRenderWindow::InitRenderTarget`, switching on
`Settings::values.graphics_api`. The trailing layout/resize calls do
not touch `child_widget` or `main_context` and are omitted. -/
def initRenderTarget (env : GLEnv) (api : GraphicsAPI) (st : RenderState) :
    Bool × RenderState :=
  match api with
  | .software => (true, initializeSoftware st)
  | .opengl =>
    match initializeOpenGL env st with
    | (false, st2) => (false, st2)
    | (true, st2) => if !loadOpenGL env then (false, st2) else (true, st2)
  | .vulkan => (true, initializeVulkan st)

/-! ## Mouse input translation (`GRenderWindow` mouse handlers,
`citra_qt/bootmanager.cpp`)

Positions are modelled as rationals (`qreal` coordinates); rounding is
the C++ `std::round` (half away from zero). -/

inductive MouseButton where
  | leftButton
  | rightButton
  | otherButton (v : Nat)
deriving DecidableEq

/-- A `QMouseEvent` as read by the handlers: whether
`event->source() == Qt::MouseEventSynthesizedBySystem`, the button and
the position. -/
structure MouseEvent where
  synthesizedBySystem : Bool
  button : MouseButton
  posX : ℚ
  posY : ℚ
deriving DecidableEq

/-- The calls a mouse handler can make into the emulated input layer,
plus the `MouseActivity` signal. -/
inductive InputAction where
  | touchPressed (x y : Nat)
  | touchMoved (x y : Nat)
  | touchReleased
  | beginTilt (x y : ℚ)
  | tilt (x y : ℚ)
  | endTilt
  | mouseActivity
deriving DecidableEq

/-- Embeds `std::round`: round half away from zero. -/
def cppRound (q : ℚ) : ℤ :=
  if q < 0 then -Int.floor (-q + 1 / 2) else Int.floor (q + 1 / 2)

/-- One coordinate of `GRenderWindow::ScaleTouch`:
`static_cast<u32>(std::max(std::round(c * pixel_ratio), qreal{0.0}))`. -/
def scaleCoord (ratio c : ℚ) : Nat :=
  (max (cppRound (c * ratio)) 0).toNat

/-- Embeds `GRenderWindow::ScaleTouch`. -/
def scaleTouch (ratio : ℚ) (x y : ℚ) : Nat × Nat :=
  (scaleCoord ratio x, scaleCoord ratio y)

/-- Embeds `GRenderWindow::mousePressEvent`: system-synthesized events return
immediately; a left press sends a scaled `TouchPressed`, a right press
begins motion-emulation tilt at the unscaled position, then
`MouseActivity` is emitted. -/
def mousePressEvent (ratio : ℚ) (e : MouseEvent) : List InputAction :=
  if e.synthesizedBySystem then []
  else
    (match e.button with
     | .leftButton =>
       [InputAction.touchPressed (scaleTouch ratio e.posX e.posY).1
          (scaleTouch ratio e.posX e.posY).2]
     | .rightButton => [InputAction.beginTilt e.posX e.posY]
     | .otherButton _ => []) ++ [InputAction.mouseActivity]

/-- Embeds `GRenderWindow::mouseMoveEvent`. -/
def mouseMoveEvent (ratio : ℚ) (e : MouseEvent) : List InputAction :=
  if e.synthesizedBySystem then []
  else
    [InputAction.touchMoved (scaleTouch ratio e.posX e.posY).1
       (scaleTouch ratio e.posX e.posY).2,
     InputAction.tilt e.posX e.posY, InputAction.mouseActivity]

/-- Embeds `GRenderWindow::mouseReleaseEvent`. -/
def mouseReleaseEvent (e : MouseEvent) : List InputAction :=
  if e.synthesizedBySystem then []
  else
    (match e.button with
     | .leftButton => [InputAction.touchReleased]
     | .rightButton => [InputAction.endTilt]
     | .otherButton _ => []) ++ [InputAction.mouseActivity]

/-! ## Concrete inputs used by witnesses and counterexamples -/

/-- A `BinaryMessage` with the given header and AAC request fields. -/
def mkRequest (codec : DecoderCodec) (cmd : DecoderCommand)
    (src size dst0 dst1 : Nat) : BinaryMessage :=
  { header := { codec := codec, cmd := cmd, result := 0 }
    aac_request := { src_addr := src, size := size, dst_addr_ch0 := dst0, dst_addr_ch1 := dst1 }
    aac_response := zeroAacResponse }

/-- An `EncodeDecode` request whose source range starts at the FCRAM
base with a `size` large enough that the 32-bit sum `src_addr + size`
wraps around: the real source range extends far beyond FCRAM. -/
def c1Request : BinaryMessage :=
  mkRequest DecoderCodec.decodeAAC DecoderCommand.encodeDecode
    0x20000000 0xF0000000 0 0

/-- A codec trace for `c1Request`: the fill call consumes the whole
buffer and the decode call reports an empty frame. -/
def c1Steps : List CodecStep :=
  [{ fillOk := true, consumed := 0xF0000000
     frame := FrameResult.ok 48000 0 0 [] }]

/-- A request rejected by the source bounds check without wrap-around
(`src_addr` below the FCRAM base). -/
def c1wRequest : BinaryMessage :=
  mkRequest DecoderCodec.decodeAAC DecoderCommand.encodeDecode 0 4 0 0

def c1wOutcome : DecodeOutcome :=
  { response := none, srcAccessed := false, writes := [], outs := emptyOuts }

/-- An `EncodeDecode` request whose channel-0 destination is inside
FCRAM but whose channel-1 destination is below the FCRAM base. -/
def c2Request : BinaryMessage :=
  mkRequest DecoderCodec.decodeAAC DecoderCommand.encodeDecode
    0x20000000 4 0x20000000 0

/-- A codec trace for `c2Request`: one frame of one stereo sample. -/
def c2Steps : List CodecStep :=
  [{ fillOk := true, consumed := 4
     frame := FrameResult.ok 48000 2 1 [5, 6] }]

/-- The outcome of `c2Request` under `c2Steps`: the request is
rejected (no response) after channel 0 has already been written. -/
def c2Outcome : DecodeOutcome :=
  { response := none, srcAccessed := true
    writes := [(0, 0x20000000, [5])]
    outs := { ch0 := [5], ch1 := [6] } }

def c8Request : BinaryMessage :=
  mkRequest DecoderCodec.decodeAAC DecoderCommand.encodeDecode 7 9 1 2

def c4Request : BinaryMessage :=
  mkRequest (DecoderCodec.otherCodec 5) DecoderCommand.init 0 0 0 0

/-- A settings store configured for Vulkan. -/
def c3Settings : GraphicsSettings :=
  { graphics_api := apiVulkan, physical_device := 0
    use_hw_shader := true, shaders_accurate_mul := false
    use_disk_shader_cache := true, use_vsync_new := false
    spirv_shader_gen := false, async_shader_compilation := false
    async_presentation := false, use_shader_jit := true }

def c3Widgets : GraphicsWidgets :=
  { graphics_api_combo := 0, physical_device_combo := 0
    toggle_hw_shader := false, toggle_accurate_mul := false
    toggle_disk_shader_cache := false, toggle_vsync_new := false
    spirv_shader_gen := false, toggle_async_shaders := false
    toggle_async_present := false, toggle_shader_jit := false }

def c5Env : EnvInput :=
  { stopRun := true, setRunning := none, setExecStep := none
    runLoopResult := ResultStatus.success }

def c5State : EmuState :=
  { running := true, execStep := false, wasActive := false }

def c6Env : GLEnv :=
  { hasOpenGL := true, supportsThreadedOpenGL := true
    gladLoadOk := true, glVersion43 := true }

def c6State : RenderState := { childWidget := none, mainContext := none }

def c7Event : MouseEvent :=
  { synthesizedBySystem := false, button := MouseButton.leftButton
    posX := 3 / 2, posY := 5 }

/-! ## Theorems -/

/-- Claim C9: `FDKDecoder::Impl::Initalize` always returns a response
equal to the request with `header.result` set to
`ResultStatus::Success`, whether or not the underlying fdk_aac decoder
handle exists; the response does not depend on the handle, so a failed
decoder construction is detectable only through `IsValid`. -/
theorem initalize_always_succeeds :
    ∀ (dv : Bool) (req : BinaryMessage),
      (initalize dv req).1 =
        { req with header := { req.header with result := resultSuccess } } ∧
      (initalize true req).1 = (initalize false req).1 ∧
      isValid dv = dv := by
  intro dv req
  exact ⟨rfl, rfl, rfl⟩

/-- Claim C4: `FDKDecoder::Impl::ProcessRequest` returns no response
for every request whose codec is not `DecodeAAC`; for `DecodeAAC`
requests it dispatches `Init` to `Initalize`, `EncodeDecode` to
`Decode`, `Unknown` to an echo of the request with `header.result`
set to 0, and any other command value yields no response. -/
theorem processRequest_dispatch :
    ∀ (dv : Bool) (steps : List CodecStep) (req : BinaryMessage),
      (req.header.codec ≠ DecoderCodec.decodeAAC →
        processRequest dv steps req =
          some { response := none, srcAccessed := false, writes := [], outs := emptyOuts }) ∧
      (req.header.codec = DecoderCodec.decodeAAC →
        (req.header.cmd = DecoderCommand.init →
          processRequest dv steps req =
            some { response := some (initalize dv req).1, srcAccessed := false
                   writes := [], outs := emptyOuts }) ∧
        (req.header.cmd = DecoderCommand.encodeDecode →
          processRequest dv steps req = fdkDecode dv steps req) ∧
        (req.header.cmd = DecoderCommand.unknownCmd →
          processRequest dv steps req =
            some { response := some { req with header := { req.header with result := 0 } }
                   srcAccessed := false, writes := [], outs := emptyOuts }) ∧
        (∀ v, req.header.cmd = DecoderCommand.otherCmd v →
          processRequest dv steps req =
            some { response := none, srcAccessed := false, writes := [], outs := emptyOuts })) := by
  intro dv steps req
  constructor
  · intro h
    simp [processRequest, h]
  · intro h
    refine ⟨?_, ?_, ?_, ?_⟩
    · intro hc; simp [processRequest, h, hc]
    · intro hc; simp [processRequest, h, hc]
    · intro hc; simp [processRequest, h, hc]
    · intro v hc; simp [processRequest, h, hc]

theorem processRequest_dispatch_witness :
    processRequest true [] c4Request =
      some { response := none, srcAccessed := false, writes := [], outs := emptyOuts } :=
  (processRequest_dispatch true [] c4Request).1 (by decide)

/-- Claim C8: when the fdk_aac decoder handle is null, every
`EncodeDecode` request still gets a response whose `size` is copied
from the request, with `num_channels = 2` and `num_samples = 1024`,
and no guest memory is read or written. -/
theorem decode_null_decoder (steps : List CodecStep) (req : BinaryMessage)
    (hcodec : req.header.codec = DecoderCodec.decodeAAC)
    (hcmd : req.header.cmd = DecoderCommand.encodeDecode) :
    processRequest false steps req =
      some { response := some
               { header := { codec := req.header.codec, cmd := req.header.cmd, result := 0 }
                 aac_request := zeroAacRequest
                 aac_response := { sample_rate := 0, num_channels := 2
                                   num_samples := 1024, size := req.aac_request.size } }
             srcAccessed := false, writes := [], outs := emptyOuts } := by
  simp [processRequest, hcodec, hcmd, fdkDecode, zeroAacResponse]

theorem decode_null_decoder_witness :
    processRequest false [] c8Request =
      some { response := some
               { header := { codec := c8Request.header.codec, cmd := c8Request.header.cmd
                             result := 0 }
                 aac_request := zeroAacRequest
                 aac_response := { sample_rate := 0, num_channels := 2
                                   num_samples := 1024, size := c8Request.aac_request.size } }
             srcAccessed := false, writes := [], outs := emptyOuts } :=
  decode_null_decoder [] c8Request rfl rfl

/-- Claim C10: under the codec parameter bounds set at construction
(at most 2 output channels, frame size at most 2048), every access of
the de-interleaving loops is in bounds: the channel index is below 2
and the read index `sample * numChannels + ch` into the 4096-element
`decoder_output` array is below 4096. -/
theorem deinterleave_in_bounds (frameSize numChannels : Nat)
    (hfs : frameSize ≤ 2048) (hnc : numChannels ≤ 2) :
    ∀ p ∈ deinterleaveIdx frameSize numChannels,
      p.2 < 2 ∧ p.1 * numChannels + p.2 < 4096 := by
  intro p hp
  simp only [deinterleaveIdx, List.mem_flatMap, List.mem_map, List.mem_range] at hp
  obtain ⟨s, hs, c, hc, rfl⟩ := hp
  refine ⟨lt_of_lt_of_le hc hnc, ?_⟩
  show s * numChannels + c < 4096
  have h1 : s * numChannels + c < (s + 1) * numChannels := by
    have := Nat.add_lt_add_left hc (s * numChannels)
    simpa [Nat.succ_mul] using this
  have h2 : (s + 1) * numChannels ≤ frameSize * numChannels :=
    Nat.mul_le_mul_right _ hs
  have h3 : frameSize * numChannels ≤ 2048 * 2 := Nat.mul_le_mul hfs hnc
  omega

theorem deinterleave_in_bounds_witness :
    (0, 1) ∈ deinterleaveIdx 1 2 ∧
    ((0, 1) : Nat × Nat).2 < 2 ∧ ((0, 1) : Nat × Nat).1 * 2 + ((0, 1) : Nat × Nat).2 < 4096 :=
  ⟨by decide, deinterleave_in_bounds 1 2 (by decide) (by decide) (0, 1) (by decide)⟩

/-- Claim C7: `GRenderWindow` translates mouse input to emulated touch
input: system-synthesized mouse events produce no touch or motion call
at all; a left press sends `TouchPressed` at the position scaled by
the window pixel ratio, each coordinate rounded and clamped to be
non-negative; a right press begins motion-emulation tilt at the
unscaled position. -/
theorem mouse_input_translation :
    ∀ (ratio : ℚ) (e : MouseEvent),
      (e.synthesizedBySystem = true →
        mousePressEvent ratio e = [] ∧ mouseMoveEvent ratio e = [] ∧
        mouseReleaseEvent e = []) ∧
      (e.synthesizedBySystem = false → e.button = MouseButton.leftButton →
        mousePressEvent ratio e =
          [InputAction.touchPressed ((max (cppRound (e.posX * ratio)) 0).toNat)
             ((max (cppRound (e.posY * ratio)) 0).toNat),
           InputAction.mouseActivity]) ∧
      (e.synthesizedBySystem = false → e.button = MouseButton.rightButton →
        mousePressEvent ratio e =
          [InputAction.beginTilt e.posX e.posY, InputAction.mouseActivity]) := by
  intro ratio e
  refine ⟨?_, ?_, ?_⟩
  · intro h
    simp [mousePressEvent, mouseMoveEvent, mouseReleaseEvent, h]
  · intro h hb
    simp [mousePressEvent, h, hb, scaleTouch, scaleCoord]
  · intro h hb
    simp [mousePressEvent, h, hb]

theorem mouse_input_translation_witness :
    mousePressEvent 2 c7Event =
      [InputAction.touchPressed ((max (cppRound (c7Event.posX * 2)) 0).toNat)
         ((max (cppRound (c7Event.posY * 2)) 0).toNat),
       InputAction.mouseActivity] :=
  (mouse_input_translation 2 c7Event).2.1 rfl rfl

/-- Claim C6: `GRenderWindow::InitRenderTarget` creates the render
surface dictated by the configured graphics API: a
`SoftwareRenderWidget` for Software and a `VulkanRenderWidget` for
Vulkan, both with a `DummyContext` main context and returning `true`;
for OpenGL it creates an `OpenGLRenderWidget` and returns `false`
exactly when OpenGL context initialization or OpenGL function loading
fails. -/
theorem initRenderTarget_by_api :
    ∀ (env : GLEnv) (st : RenderState),
      (initRenderTarget env GraphicsAPI.software st =
        (true, { childWidget := some RenderWidgetKind.softwareWidget
                 mainContext := some ContextKind.dummyContext })) ∧
      (initRenderTarget env GraphicsAPI.vulkan st =
        (true, { childWidget := some RenderWidgetKind.vulkanWidget
                 mainContext := some ContextKind.dummyContext })) ∧
      ((initRenderTarget env GraphicsAPI.opengl st).1 =
        (env.hasOpenGL && env.supportsThreadedOpenGL &&
         (env.gladLoadOk && env.glVersion43))) ∧
      ((initRenderTarget env GraphicsAPI.opengl st).1 = true →
        (initRenderTarget env GraphicsAPI.opengl st).2.childWidget =
          some RenderWidgetKind.openglWidget) := by
  intro env st
  obtain ⟨a, b, c, d⟩ := env
  refine ⟨rfl, rfl, ?_, ?_⟩
  · cases a <;> cases b <;> cases c <;> cases d <;> rfl
  · cases a <;> cases b <;> cases c <;> cases d <;>
      simp [initRenderTarget, initializeOpenGL, loadOpenGL]

theorem initRenderTarget_by_api_witness :
    (initRenderTarget c6Env GraphicsAPI.opengl c6State).2.childWidget =
      some RenderWidgetKind.openglWidget :=
  (initRenderTarget_by_api c6Env c6State).2.2.2 rfl

/-- Claim C3, counterexample: constructing `ConfigureGraphics` is not
read-only on `Settings::values`. When Vulkan instance creation throws,
`DiscoverPhysicalDevices` (called from the constructor) assigns
`Settings::values.graphics_api = GraphicsAPI::OpenGL`, so construction
changes a setting before `ApplyConfiguration` is ever called. -/
theorem construct_modifies_settings_counterexample :
    (constructConfigureGraphics false c3Settings c3Widgets).1 ≠ c3Settings ∧
    (constructConfigureGraphics false c3Settings c3Widgets).1.graphics_api = apiOpenGL ∧
    c3Settings.graphics_api = apiVulkan := by
  decide

/-- Claim C3 as amended: when Vulkan device discovery succeeds,
constructing `ConfigureGraphics` (including `SetConfiguration`) does
not modify `Settings::values`; when discovery fails, construction
changes exactly `graphics_api`, setting it to OpenGL. Settings are
otherwise written back only by `ApplyConfiguration`, and each written
setting takes the value of its corresponding widget. -/
theorem configure_graphics_settings_binding :
    ∀ (s : GraphicsSettings) (w : GraphicsWidgets),
      ((constructConfigureGraphics true s w).1 = s) ∧
      ((constructConfigureGraphics false s w).1 = { s with graphics_api := apiOpenGL }) ∧
      (applyConfiguration s w =
        { graphics_api := w.graphics_api_combo
          physical_device := w.physical_device_combo
          use_hw_shader := w.toggle_hw_shader
          shaders_accurate_mul := w.toggle_accurate_mul
          use_disk_shader_cache := w.toggle_disk_shader_cache
          use_vsync_new := w.toggle_vsync_new
          spirv_shader_gen := w.spirv_shader_gen
          async_shader_compilation := w.toggle_async_shaders
          async_presentation := w.toggle_async_present
          use_shader_jit := w.toggle_shader_jit }) := by
  intro s w
  exact ⟨rfl, rfl, rfl⟩

theorem emptyOuts_get (ch : Nat) : emptyOuts.get ch = [] := by
  unfold OutStreams.get emptyOuts
  split <;> rfl


/-- A failing destination bounds check makes `channelTransfer` reject. -/
theorem channelTransfer_fails (req : AacRequest) (outs : OutStreams) (ch : Nat)
    (hne : outs.get ch ≠ [])
    (hcheck : (if ch = 0 then req.dst_addr_ch0 else req.dst_addr_ch1) < FCRAM_PADDR ∨
      ((if ch = 0 then req.dst_addr_ch0 else req.dst_addr_ch1) +
        (outs.get ch).length * 2 % 2 ^ 64) % 2 ^ 64 > FCRAM_PADDR + FCRAM_SIZE) :
    channelTransfer req outs ch = none := by
  simp only [channelTransfer]
  rw [if_neg hne, if_pos hcheck]

/-- The result of a successful `channelTransfer` is either empty (the
channel produced no samples) or the single write for that channel. -/
theorem channelTransfer_shape (req : AacRequest) (outs : OutStreams) (ch : Nat)
    (ws : List (Nat × Nat × List Int)) (h : channelTransfer req outs ch = some ws) :
    ws = [] ∨
    ws = [(ch, if ch = 0 then req.dst_addr_ch0 else req.dst_addr_ch1, outs.get ch)] := by
  by_cases hs : outs.get ch = []
  · left
    simp only [channelTransfer] at h
    rw [if_pos hs] at h
    exact (Option.some_inj.mp h).symm
  · by_cases hc : (if ch = 0 then req.dst_addr_ch0 else req.dst_addr_ch1) < FCRAM_PADDR ∨
        ((if ch = 0 then req.dst_addr_ch0 else req.dst_addr_ch1) +
          (outs.get ch).length * 2 % 2 ^ 64) % 2 ^ 64 > FCRAM_PADDR + FCRAM_SIZE
    · rw [channelTransfer_fails req outs ch hs hc] at h
      exact absurd h (by simp)
    · right
      simp only [channelTransfer] at h
      rw [if_neg hs, if_neg hc] at h
      exact (Option.some_inj.mp h).symm

/-- When the source bounds check (in 32-bit arithmetic) fails, `Decode`
rejects the request before touching any guest memory. -/
theorem fdkDecode_src_reject (steps : List CodecStep) (req : BinaryMessage)
    (hc : req.aac_request.src_addr < FCRAM_PADDR ∨
      (req.aac_request.src_addr + req.aac_request.size) % 2 ^ 32 >
        FCRAM_PADDR + FCRAM_SIZE) :
    fdkDecode true steps req =
      some { response := none, srcAccessed := false, writes := [], outs := emptyOuts } := by
  simp only [fdkDecode, Bool.not_true]
  rw [if_neg (show ¬(false = true) from by simp), if_pos hc]

/-- Case analysis on a terminating run of `Decode`. -/
theorem fdkDecode_spec (dv : Bool) (steps : List CodecStep) (req : BinaryMessage)
    (o : DecodeOutcome) (h : fdkDecode dv steps req = some o) :
    (dv = false ∧ o.response ≠ none ∧ o.srcAccessed = false ∧ o.writes = [] ∧
      o.outs = emptyOuts) ∨
    (o = { response := none, srcAccessed := false, writes := [], outs := emptyOuts }) ∨
    (o.response = none ∧ o.writes = []) ∨
    (∃ b ws, transferAll req.aac_request o.outs = (b, ws) ∧ o.writes = ws ∧
      (b = false → o.response = none) ∧ (b = true → o.response ≠ none)) := by
  cases dv with
  | false =>
    simp only [fdkDecode, Bool.not_false] at h
    rw [if_pos (show True from trivial)] at h
    have ho := Option.some_inj.mp h
    left
    exact ⟨rfl, by rw [← ho]; simp, by rw [← ho], by rw [← ho], by rw [← ho]⟩
  | true =>
    simp only [fdkDecode, Bool.not_true] at h
    rw [if_neg (show ¬(false = true) from by simp)] at h
    by_cases hc : req.aac_request.src_addr < FCRAM_PADDR ∨
        (req.aac_request.src_addr + req.aac_request.size) % 2 ^ 32 >
          FCRAM_PADDR + FCRAM_SIZE
    · rw [if_pos hc] at h
      right; left
      exact (Option.some_inj.mp h).symm
    · rw [if_neg hc] at h
      split at h
      · exact absurd h (by simp)
      · right; right; left
        have ho := (Option.some_inj.mp h).symm
        subst ho
        exact ⟨rfl, rfl⟩
      · rename_i resp outs heq
        split at h
        · rename_i ws htr
          right; right; right
          have ho := (Option.some_inj.mp h).symm
          subst ho
          exact ⟨false, ws, htr, rfl, fun _ => rfl, fun hb => by simp at hb⟩
        · rename_i ws htr
          right; right; right
          have ho := (Option.some_inj.mp h).symm
          subst ho
          exact ⟨true, ws, htr, rfl, fun hb => by simp at hb, fun _ => by simp⟩

/-- Claim C1, counterexample: the source bounds check of `Decode` is
performed in 32-bit arithmetic, so `src_addr + size` can wrap. For
`src_addr = 0x20000000` (the FCRAM base) and `size = 0xF0000000` the
source range `[src_addr, src_addr + size)` does not lie within FCRAM,
yet `Decode` accepts the request, hands the source buffer to the
codec (`srcAccessed = true`) and returns a response instead of
rejecting it. -/
theorem decode_src_check_wraps_counterexample :
    ¬ (FCRAM_PADDR ≤ c1Request.aac_request.src_addr ∧
       c1Request.aac_request.src_addr + c1Request.aac_request.size ≤
         FCRAM_PADDR + FCRAM_SIZE) ∧
    (fdkDecode true c1Steps c1Request).map
      (fun o => (o.srcAccessed, o.response.isSome)) = some (true, true) := by
  decide

/-- Claim C1 as amended: with a non-null decoder, the bounds checks of
`Decode` are exact except for 32-bit wrap-around of the source check.
Source: whenever `src_addr + size` does not overflow 32 bits, a source
range not contained in FCRAM is rejected with no response, no source
access and no write (wrap-around can defeat the check, see the
counterexample). Destination: each channel with non-empty decoded
output whose destination range is not contained in FCRAM (with the
byte size below `2^63`, as any realizable vector length is, and the
`u32` destination below `2^32`) yields no response and no write for
that channel. -/
theorem decode_bounds_checks_amended :
    ∀ (steps : List CodecStep) (req : BinaryMessage) (o : DecodeOutcome),
      fdkDecode true steps req = some o →
      ((req.aac_request.src_addr + req.aac_request.size < 2 ^ 32 →
        ¬ (FCRAM_PADDR ≤ req.aac_request.src_addr ∧
           req.aac_request.src_addr + req.aac_request.size ≤ FCRAM_PADDR + FCRAM_SIZE) →
        o = { response := none, srcAccessed := false, writes := [], outs := emptyOuts }) ∧
       (∀ ch, ch < 2 → o.outs.get ch ≠ [] →
        (o.outs.get ch).length * 2 ≤ 2 ^ 63 →
        (if ch = 0 then req.aac_request.dst_addr_ch0 else req.aac_request.dst_addr_ch1) < 2 ^ 32 →
        ¬ (FCRAM_PADDR ≤
             (if ch = 0 then req.aac_request.dst_addr_ch0 else req.aac_request.dst_addr_ch1) ∧
           (if ch = 0 then req.aac_request.dst_addr_ch0 else req.aac_request.dst_addr_ch1) +
             (o.outs.get ch).length * 2 ≤ FCRAM_PADDR + FCRAM_SIZE) →
        o.response = none ∧ ∀ w ∈ o.writes, w.1 ≠ ch)) := by
  intro steps req o h
  constructor
  · intro hov hout
    have hc : req.aac_request.src_addr < FCRAM_PADDR ∨
        (req.aac_request.src_addr + req.aac_request.size) % 2 ^ 32 >
          FCRAM_PADDR + FCRAM_SIZE := by
      rw [Nat.mod_eq_of_lt hov]
      rcases Nat.lt_or_ge req.aac_request.src_addr FCRAM_PADDR with hlt | hge
      · exact Or.inl hlt
      · right
        by_contra hgt
        push_neg at hgt
        exact hout ⟨hge, hgt⟩
    rw [fdkDecode_src_reject steps req hc] at h
    exact (Option.some_inj.mp h).symm
  · intro ch hch hne hlen hdst hout
    have hmod1 : (o.outs.get ch).length * 2 % 2 ^ 64 = (o.outs.get ch).length * 2 :=
      Nat.mod_eq_of_lt (by omega)
    have hmod2 : ((if ch = 0 then req.aac_request.dst_addr_ch0 else req.aac_request.dst_addr_ch1) +
        (o.outs.get ch).length * 2) % 2 ^ 64 =
        (if ch = 0 then req.aac_request.dst_addr_ch0 else req.aac_request.dst_addr_ch1) +
          (o.outs.get ch).length * 2 :=
      Nat.mod_eq_of_lt (by omega)
    have hcheck : (if ch = 0 then req.aac_request.dst_addr_ch0 else req.aac_request.dst_addr_ch1) <
        FCRAM_PADDR ∨
        ((if ch = 0 then req.aac_request.dst_addr_ch0 else req.aac_request.dst_addr_ch1) +
          (o.outs.get ch).length * 2 % 2 ^ 64) % 2 ^ 64 > FCRAM_PADDR + FCRAM_SIZE := by
      rw [hmod1, hmod2]
      rcases Nat.lt_or_ge
          (if ch = 0 then req.aac_request.dst_addr_ch0 else req.aac_request.dst_addr_ch1)
          FCRAM_PADDR with hlt | hge
      · exact Or.inl hlt
      · right
        by_contra hgt
        push_neg at hgt
        exact hout ⟨hge, hgt⟩
    have hct : channelTransfer req.aac_request o.outs ch = none :=
      channelTransfer_fails _ _ _ hne hcheck
    rcases fdkDecode_spec true steps req o h with hA | hB | hC | hD
    · exact absurd hA.1 (by simp)
    · rw [hB] at hne
      exact absurd (emptyOuts_get ch) hne
    · refine ⟨hC.1, ?_⟩
      rw [hC.2]
      intro w hw
      simp at hw
    · obtain ⟨b, ws, htr, hws, hbf, hbt⟩ := hD
      interval_cases ch
      · simp only [transferAll, hct] at htr
        obtain ⟨hb, hws2⟩ := Prod.mk.inj htr
        refine ⟨hbf hb.symm, ?_⟩
        rw [hws, ← hws2]
        intro w hw
        simp at hw
      · rcases hct0 : channelTransfer req.aac_request o.outs 0 with _ | w0
        · simp only [transferAll, hct0] at htr
          obtain ⟨hb, hws2⟩ := Prod.mk.inj htr
          refine ⟨hbf hb.symm, ?_⟩
          rw [hws, ← hws2]
          intro w hw
          simp at hw
        · simp only [transferAll, hct0, hct] at htr
          obtain ⟨hb, hws2⟩ := Prod.mk.inj htr
          refine ⟨hbf hb.symm, ?_⟩
          rw [hws, ← hws2]
          intro w hw
          rcases channelTransfer_shape _ _ _ _ hct0 with h0 | h0 <;> rw [h0] at hw
          · simp at hw
          · simp at hw
            subst hw
            simp

theorem decode_bounds_checks_amended_witness :
    fdkDecode true [] c1wRequest = some c1wOutcome ∧
    c1wOutcome = { response := none, srcAccessed := false, writes := [], outs := emptyOuts } :=
  ⟨by decide,
   (decode_bounds_checks_amended [] c1wRequest c1wOutcome (by decide)).1
     (by decide) (by decide)⟩

/-- Claim C2, counterexample: `Decode` can return no response with
guest memory already modified. With both channels producing samples,
a channel-0 destination inside FCRAM and a channel-1 destination
outside it, the transfer loop performs channel 0's write and only then
fails channel 1's bounds check, returning an empty optional. -/
theorem decode_partial_write_counterexample :
    fdkDecode true c2Steps c2Request = some c2Outcome ∧
    c2Outcome.response = none ∧ c2Outcome.writes ≠ [] := by
  refine ⟨by decide, rfl, by decide⟩

/-- Claim C2 as amended: when `Decode` returns no response, the only
guest-memory write that may already have happened is channel 0's (to
`dst_addr_ch0`, when the failure was channel 1's destination check);
failures at the source check, at the codec calls, or at channel 0's
destination check leave guest memory unchanged. -/
theorem decode_reject_leaves_memory_amended :
    ∀ (dv : Bool) (steps : List CodecStep) (req : BinaryMessage) (o : DecodeOutcome),
      fdkDecode dv steps req = some o → o.response = none →
      (∀ w ∈ o.writes, w.1 = 0 ∧ w.2.1 = req.aac_request.dst_addr_ch0) ∧
      o.writes.length ≤ 1 := by
  intro dv steps req o h hresp
  rcases fdkDecode_spec dv steps req o h with hA | hB | hC | hD
  · exact absurd hresp hA.2.1
  · rw [hB]
    exact ⟨by intro w hw; simp at hw, by simp⟩
  · rw [hC.2]
    exact ⟨by intro w hw; simp at hw, by simp⟩
  · obtain ⟨b, ws, htr, hws, hbf, hbt⟩ := hD
    cases b with
    | true => exact absurd hresp (hbt rfl)
    | false =>
      rcases hct0 : channelTransfer req.aac_request o.outs 0 with _ | w0
      · simp only [transferAll, hct0] at htr
        obtain ⟨hb, hws2⟩ := Prod.mk.inj htr
        rw [hws, ← hws2]
        exact ⟨by intro w hw; simp at hw, by simp⟩
      · rcases hct1 : channelTransfer req.aac_request o.outs 1 with _ | w1
        · simp only [transferAll, hct0, hct1] at htr
          obtain ⟨hb, hws2⟩ := Prod.mk.inj htr
          rw [hws, ← hws2]
          rcases channelTransfer_shape _ _ _ _ hct0 with h0 | h0 <;> rw [h0]
          · exact ⟨by intro w hw; simp at hw, by simp⟩
          · constructor
            · intro w hw
              simp at hw
              subst hw
              exact ⟨rfl, rfl⟩
            · simp
        · simp only [transferAll, hct0, hct1] at htr
          obtain ⟨hb, hws2⟩ := Prod.mk.inj htr
          exact absurd hb (by simp)

theorem decode_reject_leaves_memory_amended_witness :
    fdkDecode true c2Steps c2Request = some c2Outcome ∧ c2Outcome.writes.length ≤ 1 :=
  ⟨by decide,
   (decode_reject_leaves_memory_amended true c2Steps c2Request c2Outcome (by decide) rfl).2⟩

/-- When the loop-head check sees `stop_run`, the iteration performs
nothing and the loop exits. -/
theorem emuStep_stop (e : EnvInput) (s : EmuState) (h : e.stopRun = true) :
    (emuStep e s).1 = [] ∧ (emuStep e s).2.2 = true := by
  simp [emuStep, h]

/-- Per-iteration event accounting: no iteration emits `shutdown`, at
most one emulation step is executed per iteration, a non-exiting
iteration contains no `ShutdownRequested` run-loop step, and an
exiting iteration followed by the final `shutdown` has no emulation
step after a `ShutdownRequested` result. -/
theorem emuStep_shape (e : EnvInput) (s : EmuState) :
    (emuStep e s).1.countP isShutdownEvent = 0 ∧
    (emuStep e s).1.countP isEmulationStep ≤ 1 ∧
    ((emuStep e s).2.2 = false →
      (emuStep e s).1.all (fun ev => !isShutdownReqStep ev) = true) ∧
    ((emuStep e s).2.2 = true →
      noStepAfterShutdownReq ((emuStep e s).1 ++ [EmuEvent.shutdown]) = true) := by
  rcases e with ⟨stop, setR, setE, r⟩
  cases stop <;> cases hr : setR.getD s.running <;> cases he : setE.getD s.execStep <;>
    cases hw : s.wasActive <;> cases r <;>
      simp [emuStep, hr, he, hw, isShutdownEvent, isEmulationStep, isShutdownReqStep,
        noStepAfterShutdownReq, List.countP_cons, List.countP_nil]

/-- Events free of `ShutdownRequested` run-loop steps can be dropped
from the front of `noStepAfterShutdownReq`. -/
theorem noStepAfterShutdownReq_append (l1 l2 : List EmuEvent)
    (h : l1.all (fun ev => !isShutdownReqStep ev) = true) :
    noStepAfterShutdownReq (l1 ++ l2) = noStepAfterShutdownReq l2 := by
  induction l1 with
  | nil => rfl
  | cons a l ih =>
    simp only [List.all_cons, Bool.and_eq_true, Bool.not_eq_true'] at h
    rw [List.cons_append, noStepAfterShutdownReq, if_neg (by simp [h.1])]
    exact ih (by simp [List.all_eq_true] at h ⊢; exact h.2)

/-- Trace-level properties of a terminating run of the loop. -/
theorem emuLoop_trace_spec :
    ∀ (env : List EnvInput) (s : EmuState) (trace : List EmuEvent),
      emuLoop env s = some trace →
      trace.countP isShutdownEvent = 1 ∧
      (∃ pre, trace = pre ++ [EmuEvent.shutdown]) ∧
      noStepAfterShutdownReq trace = true ∧
      trace.countP isEmulationStep ≤ env.findIdx (fun e => e.stopRun) := by
  intro env
  induction env with
  | nil =>
    intro s trace h
    simp [emuLoop] at h
  | cons e rest ih =>
    intro s trace h
    rcases hstep : emuStep e s with ⟨evs, s2, ex⟩
    obtain ⟨hc0, hc1, hexf, hext⟩ := emuStep_shape e s
    rw [hstep] at hc0 hc1 hexf hext
    dsimp only at hc0 hc1 hexf hext
    simp only [emuLoop, hstep] at h
    cases ex with
    | true =>
      have htr : trace = evs ++ [EmuEvent.shutdown] := (Option.some_inj.mp h).symm
      subst htr
      refine ⟨?_, ⟨evs, rfl⟩, hext rfl, ?_⟩
      · rw [List.countP_append]
        simp [hc0, isShutdownEvent]
      · rw [List.countP_append]
        cases hstop : e.stopRun with
        | true =>
          have hevs : evs = [] := by
            have := (emuStep_stop e s hstop).1
            rw [hstep] at this
            exact this
          subst hevs
          simp [List.findIdx_cons, hstop, isEmulationStep]
        | false =>
          rw [List.findIdx_cons]
          simp only [hstop, cond_false]
          have : List.countP isEmulationStep [EmuEvent.shutdown] = 0 := by
            simp [isEmulationStep]
          omega
    | false =>
      rcases Option.map_eq_some'.mp h with ⟨t, ht, htr⟩
      subst htr
      obtain ⟨d1, ⟨pre, hpre⟩, d3, d4⟩ := ih s2 t ht
      have hstop : e.stopRun = false := by
        by_contra hst
        rw [Bool.not_eq_false] at hst
        have := (emuStep_stop e s hst).2
        rw [hstep] at this
        simp at this
      refine ⟨?_, ⟨evs ++ pre, by rw [hpre, List.append_assoc]⟩, ?_, ?_⟩
      · rw [List.countP_append, hc0, d1]
      · rw [noStepAfterShutdownReq_append evs t (hexf rfl)]
        exact d3
      · rw [List.countP_append, List.findIdx_cons]
        simp only [hstop, cond_false]
        omega

/-- Claim C5: the `EmuThread::run` loop never executes another
emulation step once `stop_run` is observed or after `RunLoop` returns
`ShutdownRequested`; on `ShutdownRequested` it emits the error and
exits the loop; on any other non-`Success` result it sets `running`
to false and reports the error but stays in the loop; and after the
loop exits, `system.Shutdown()` runs exactly once, as the final
event. -/
theorem emuthread_loop_control :
    (∀ (e : EnvInput) (s : EmuState), e.stopRun = true →
      (emuStep e s).1 = [] ∧ (emuStep e s).2.2 = true) ∧
    (∀ (e : EnvInput) (s : EmuState), e.stopRun = false →
      e.setRunning.getD s.running = true →
      e.runLoopResult = ResultStatus.shutdownRequested →
      (emuStep e s).2.2 = true ∧
      EmuEvent.errorThrown ResultStatus.shutdownRequested ∈ (emuStep e s).1) ∧
    (∀ (e : EnvInput) (s : EmuState) (r : ResultStatus), e.stopRun = false →
      e.setRunning.getD s.running = true → e.runLoopResult = r →
      r ≠ ResultStatus.success → r ≠ ResultStatus.shutdownRequested →
      (emuStep e s).2.2 = false ∧ (emuStep e s).2.1.running = false ∧
      EmuEvent.errorThrown r ∈ (emuStep e s).1) ∧
    (∀ (env : List EnvInput) (s : EmuState) (trace : List EmuEvent),
      emuLoop env s = some trace →
      trace.countP isShutdownEvent = 1 ∧
      (∃ pre, trace = pre ++ [EmuEvent.shutdown]) ∧
      noStepAfterShutdownReq trace = true ∧
      trace.countP isEmulationStep ≤ env.findIdx (fun e => e.stopRun)) := by
  refine ⟨emuStep_stop, ?_, ?_, emuLoop_trace_spec⟩
  · intro e s h1 h2 h3
    cases hw : s.wasActive <;> simp [emuStep, h1, h2, h3, hw]
  · intro e s r h1 h2 h3 h4 h5
    subst h3
    cases hw : s.wasActive <;> cases he : e.setExecStep.getD s.execStep <;>
      simp [emuStep, h1, h2, h4, h5, hw, he]

theorem emuthread_loop_control_witness :
    (emuStep c5Env c5State).1 = [] ∧ (emuStep c5Env c5State).2.2 = true :=
  emuthread_loop_control.1 c5Env c5State rfl
